import Mathlib

/-!
Verification development for the rybbit-js in-page telemetry agent.

The definitions below are a shallow embedding of the TypeScript source:

* `src/utils.ts` — `patternToRegex`, `findMatchingPattern`, `debounce`,
  `getPathname`, string helpers;
* `src/config.ts` — `fetchRemoteConfig`, `initializeConfig`, the read-only
  `currentConfig` proxy;
* `src/core.ts` — `track` with its short-circuits, path override resolution,
  skip/mask classification and payload assembly;
* `src/sessionReplay.ts` — the replay frame buffer (`addEvent`,
  `flushEvents` with its failure re-queue);
* `src/listeners.ts` — the debounced pageview trigger and the page-change
  callback notification.

Stateful code is modelled by explicit state passing; the asynchronous send
of a replay batch is modelled as two steps (the synchronous buffer swap and
the later resolve/reject continuation); browser state (location, screen,
document) is a record passed to the functions that read it.
-/

namespace Rybbit

/-! ### String helpers

JavaScript string primitives used by the source, modelled on `List Char`.
-/

/-- Model of JavaScript `String.prototype.trim`. -/
def jsTrim (s : String) : String :=
  ⟨(((s.data.dropWhile Char.isWhitespace).reverse).dropWhile Char.isWhitespace).reverse⟩

/-- Character-list prefix test used to model JavaScript `startsWith` and the
anchored regular expressions `/^\//` and `/^https?:\/\//`. -/
def leadMatch : List Char → List Char → Bool
  | [], _ => true
  | _ :: _, [] => false
  | c :: cs, d :: ds => c == d && leadMatch cs ds

/-- Whether string `s` starts with string `p`. -/
def strStarts (s p : String) : Bool := leadMatch p.data s.data

/-- Model of `analyticsHost.replace(/\/$/, "")`: strip one trailing slash. -/
def stripTrailingSlash (s : String) : String :=
  match s.data.reverse with
  | '/' :: rest => ⟨rest.reverse⟩
  | _ => s

/-- JavaScript `eventName ?? ""`-style read of an optional string; `optStr o = ""`
models the falsiness test `!eventName` (undefined or empty string). -/
def optStr (o : Option String) : String :=
  match o with
  | some s => s
  | none => ""

/-! ### PatternMatcher (`src/utils.ts`, `patternToRegex` / `findMatchingPattern`)

`patternToRegex` tokenizes `**` and `*` to sentinel placeholders, escapes every
other regex metacharacter (so the remaining characters match literally), then
substitutes `**` with `.*` and `*` with `[^/]+` and anchors the whole pattern
with `^...$`.  The embedding below represents the compiled anchored regex as a
token list: a literal character, `.*`, or `[^/]+`, together with an executable
matcher giving the standard semantics of those three constructs.  Because every
metacharacter of the input is escaped before `new RegExp` is called, the
constructed regex source is always syntactically valid, so the `catch` branch
that returns `null` is unreachable: compilation always succeeds. -/

/-- A token of the compiled pattern: a literal character (everything was
regex-escaped), `[^/]+` (from `*`), or `.*` (from `**`). -/
inductive Tok where
  | lit (c : Char)
  | star
  | dstar
deriving DecidableEq

/-- Tokenization of a glob pattern: `**` first (left to right, mirroring the
global `replace(/\*\*/g, ...)` pass), then `*`, all other characters literal. -/
def tokenizePattern : List Char → List Tok
  | [] => []
  | '*' :: '*' :: rest => Tok.dstar :: tokenizePattern rest
  | '*' :: rest => Tok.star :: tokenizePattern rest
  | c :: rest => Tok.lit c :: tokenizePattern rest

/-- All suffixes of a character list, longest first (the candidate remainders
after `.*` consumes a prefix, including the empty consumption). -/
def allTails : List Char → List (List Char)
  | [] => [[]]
  | c :: cs => (c :: cs) :: allTails cs

/-- Candidate remainders after `[^/]+` consumes a nonempty run of
non-separator characters from the front. -/
def starTails : List Char → List (List Char)
  | [] => []
  | c :: cs => if c = '/' then [] else cs :: starTails cs

/-- Anchored matching of a compiled token list against a string, with the
regular-expression semantics of `.*` and `[^/]+`. -/
def matchToks : List Tok → List Char → Bool
  | [], s => s.isEmpty
  | Tok.lit c :: ts, s =>
      match s with
      | [] => false
      | x :: xs => c == x && matchToks ts xs
  | Tok.dstar :: ts, s => (allTails s).any fun suf => matchToks ts suf
  | Tok.star :: ts, s => (starTails s).any fun suf => matchToks ts suf

/-- Embedding of `patternToRegex`.  The result is `some` compiled matcher:
after the escaping pass the regex source is always well formed, so the
`catch`/`null` branch of the source never fires. -/
def patternToRegex (pattern : String) : Option (List Tok) :=
  some (tokenizePattern pattern.data)

/-- `patternToRegex(pattern)` followed by `.test(path)` (`false` when
compilation returned `null`, which cannot happen). -/
def patternTest (pattern path : String) : Bool :=
  match patternToRegex pattern with
  | some toks => matchToks toks path.data
  | none => false

/-- Embedding of `findMatchingPattern`: first pattern (in list order) whose
compiled matcher accepts the path, else `none`. -/
def findMatchingPattern (path : String) (patterns : List String) : Option String :=
  match patterns with
  | [] => none
  | p :: rest =>
      match patternToRegex p with
      | some toks =>
          if matchToks toks path.data then some p else findMatchingPattern path rest
      | none => findMatchingPattern path rest

/-! ### Page location and `getPathname` (`src/utils.ts`) -/

/-- The parts of `new URL(window.location.href)` that the agent reads.
`search` is `""` or starts with `?`; `hash` is `""` or starts with `#`. -/
structure PageLocation where
  hostname : String
  pathname : String
  search : String
  hash : String
deriving DecidableEq

/-- Embedding of `getPathname`: the location pathname with the hash fragment
appended when the hash is nonempty (`if (url.hash) pathname += url.hash`). -/
def getPathname (loc : PageLocation) : String :=
  if loc.hash = "" then loc.pathname else loc.pathname ++ loc.hash

/-! ### ConfigStore (`src/config.ts`)

`initializeConfig` validates the caller options, performs one remote-config
fetch, and freezes `internalConfig`.  The module-level `internalConfig`
variable is modelled as an explicit `ConfigState` passed in and returned;
the one-shot `fetch` with its 3000 ms abort timeout is modelled by a
`FetchOutcome` argument describing how the request ended. -/

/-- Session-replay privacy options (local caller settings, from `types.ts`). -/
structure ReplayPrivacyConfig where
  maskAllInputs : Option Bool := none
  maskTextSelectors : Option (List String) := none
deriving DecidableEq

/-- The remote-controlled toggles, after mapping from API field names. -/
structure RemoteConfig where
  autoTrackPageview : Bool
  autoTrackSpa : Bool
  trackQuerystring : Bool
  trackOutbound : Bool
  enableWebVitals : Bool
  trackErrors : Bool
  enableSessionReplay : Bool
deriving DecidableEq

/-- `remoteDefaults`: built-in values used when remote config fails or a
field is missing from the response. -/
def remoteDefaults : RemoteConfig :=
  { autoTrackPageview := true
    autoTrackSpa := true
    trackQuerystring := true
    trackOutbound := true
    enableWebVitals := false
    trackErrors := false
    enableSessionReplay := false }

/-- The JSON body of `GET {host}/site/tracking-config/{siteId}`: each toggle
may be present or absent. -/
structure ApiConfig where
  trackInitialPageView : Option Bool := none
  trackSpaNavigation : Option Bool := none
  trackUrlParams : Option Bool := none
  trackOutbound : Option Bool := none
  webVitals : Option Bool := none
  trackErrors : Option Bool := none
  sessionReplay : Option Bool := none
deriving DecidableEq

/-- How the remote-config request ended: `failed` covers a network error and
the 3000 ms abort timeout; `response ok body` is an HTTP response, `ok`
being `response.ok` (2xx). -/
inductive FetchOutcome where
  | failed
  | response (ok : Bool) (api : ApiConfig)
deriving DecidableEq

/-- Embedding of `fetchRemoteConfig`: on a 2xx response, map API field names
to internal names with per-field defaults; on a non-2xx response, a network
error, or a timeout, return `none`. -/
def fetchRemoteConfig : FetchOutcome → Option RemoteConfig
  | FetchOutcome.failed => none
  | FetchOutcome.response ok api =>
      if ok then
        some { autoTrackPageview := api.trackInitialPageView.getD remoteDefaults.autoTrackPageview
               autoTrackSpa := api.trackSpaNavigation.getD remoteDefaults.autoTrackSpa
               trackQuerystring := api.trackUrlParams.getD remoteDefaults.trackQuerystring
               trackOutbound := api.trackOutbound.getD remoteDefaults.trackOutbound
               enableWebVitals := api.webVitals.getD remoteDefaults.enableWebVitals
               trackErrors := api.trackErrors.getD remoteDefaults.trackErrors
               enableSessionReplay := api.sessionReplay.getD remoteDefaults.enableSessionReplay }
      else none

/-- A list-typed caller option as a JavaScript value: an array, or any
non-array value (which `Array.isArray` rejects). -/
inductive JsListInput where
  | notArray
  | arr (l : List String)
deriving DecidableEq

/-- `Array.isArray(x) ? x : localDefaults...` — non-array or absent values
are replaced by the empty-list default. -/
def validateList (x : Option JsListInput) : List String :=
  match x with
  | some (JsListInput.arr l) => l
  | _ => []

/-- The caller options object of `rybbit.init`.  The last seven fields model
remote-controlled toggle keys a JavaScript caller may also place on the
options object; `initializeConfig` never reads them. -/
structure RybbitOptions where
  analyticsHost : Option String := none
  siteId : Option String := none
  debounceDuration : Option Int := none
  skipPatterns : Option JsListInput := none
  maskPatterns : Option JsListInput := none
  debug : Option Bool := none
  replayPrivacyConfig : Option ReplayPrivacyConfig := none
  autoTrackPageview : Option Bool := none
  autoTrackSpa : Option Bool := none
  trackQuerystring : Option Bool := none
  trackOutbound : Option Bool := none
  enableWebVitals : Option Bool := none
  trackErrors : Option Bool := none
  enableSessionReplay : Option Bool := none
deriving DecidableEq

/-- The argument passed to `rybbit.init` as a JavaScript value: a
well-formed options object, or any non-object value. -/
inductive OptionsInput where
  | notObject
  | obj (o : RybbitOptions)
deriving DecidableEq

/-- The frozen `internalConfig` record. -/
structure InternalConfig where
  analyticsHost : String
  siteId : String
  debounceDuration : Int
  skipPatterns : List String
  maskPatterns : List String
  debug : Bool
  replayPrivacyConfig : Option ReplayPrivacyConfig
  autoTrackPageview : Bool
  autoTrackSpa : Bool
  trackQuerystring : Bool
  trackOutbound : Bool
  enableWebVitals : Bool
  trackErrors : Bool
  enableSessionReplay : Bool
deriving DecidableEq

/-- The module-level `internalConfig` variable: `none` before a successful
initialization. -/
abbrev ConfigState := Option InternalConfig

/-- The record frozen on success (the `internalConfig = { ... }` assignment):
locals from the caller options with defaults and clamping, remote-controlled
fields from the fetched remote config or `remoteDefaults`. -/
def freezeConfig (o : RybbitOptions) (finalHost sid : String) (fetch : FetchOutcome) :
    InternalConfig :=
  let finalRemote := (fetchRemoteConfig fetch).getD remoteDefaults
  { analyticsHost := finalHost
    siteId := sid
    debounceDuration := max 0 (o.debounceDuration.getD 500)
    skipPatterns := validateList o.skipPatterns
    maskPatterns := validateList o.maskPatterns
    debug := o.debug.getD false
    replayPrivacyConfig := o.replayPrivacyConfig
    autoTrackPageview := finalRemote.autoTrackPageview
    autoTrackSpa := finalRemote.autoTrackSpa
    trackQuerystring := finalRemote.trackQuerystring
    trackOutbound := finalRemote.trackOutbound
    enableWebVitals := finalRemote.enableWebVitals
    trackErrors := finalRemote.trackErrors
    enableSessionReplay := finalRemote.enableSessionReplay }

/-- Embedding of `initializeConfig`: returns the boolean result together with
the new `internalConfig` state.  Failure paths (`already initialized`,
non-object input, missing/blank `analyticsHost`, missing/blank `siteId`)
return `false` and leave the state unchanged; the JavaScript falsiness test
`!analyticsHost` together with `trim() === ""` is modelled by
`jsTrim · = ""` on the present-string case and by the `none` case. -/
def initializeConfig (st : ConfigState) (input : OptionsInput) (fetch : FetchOutcome) :
    Bool × ConfigState :=
  match st with
  | some c => (false, some c)
  | none =>
      match input with
      | OptionsInput.notObject => (false, none)
      | OptionsInput.obj o =>
          match o.analyticsHost with
          | none => (false, none)
          | some ah =>
              if jsTrim ah = "" then (false, none)
              else
                match o.siteId with
                | none => (false, none)
                | some sid =>
                    if jsTrim sid = "" then (false, none)
                    else (true, some (freezeConfig o (stripTrailingSlash ah) sid fetch))

/-- Read of `currentConfig.analyticsHost` through the proxy: before
initialization the defaults tables hold no `analyticsHost`, so the proxy
yields `undefined` (modelled `none`). -/
def readAnalyticsHost : ConfigState → Option String
  | none => none
  | some c => some c.analyticsHost

/-- Read of `currentConfig.debug` through the proxy: `localDefaults.debug =
false` before initialization (the one read that does not log). -/
def readDebug : ConfigState → Bool
  | none => false
  | some c => c.debug

/-- Read of `currentConfig.trackQuerystring` through the proxy:
`remoteDefaults.trackQuerystring = true` before initialization. -/
def readTrackQuerystring : ConfigState → Bool
  | none => true
  | some c => c.trackQuerystring

/-! ### Dispatcher (`src/core.ts`, `track`)

The `new URL(pathOverride, "http://dummybase")` parse used for path
overrides is modelled on the URL shapes the override validation admits
(leading `/`, or an absolute `http://`/`https://` URL); percent-encoding
normalization and dot-segment removal are elided, and an absolute URL with
an empty host models the constructor throwing. -/

/-- Characters of a URL string before the first `?` or `#` (the pathname of
a root-relative URL). -/
def takeUntilQH : List Char → List Char
  | [] => []
  | c :: cs => if c = '?' ∨ c = '#' then [] else c :: takeUntilQH cs

/-- Remainder of a URL string from the first `?` or `#` on. -/
def dropToQH : List Char → List Char
  | [] => []
  | c :: cs => if c = '?' ∨ c = '#' then c :: cs else dropToQH cs

/-- Characters before the first `#`. -/
def takeUntilHash : List Char → List Char
  | [] => []
  | c :: cs => if c = '#' then [] else c :: takeUntilHash cs

/-- Characters before the first `/`, `?` or `#` (the host part after the
scheme of an absolute URL). -/
def takeHost : List Char → List Char
  | [] => []
  | c :: cs => if c = '/' ∨ c = '?' ∨ c = '#' then [] else c :: takeHost cs

/-- Remainder from the first `/`, `?` or `#` on (path, query and fragment of
an absolute URL). -/
def dropHost : List Char → List Char
  | [] => []
  | c :: cs => if c = '/' ∨ c = '?' ∨ c = '#' then c :: cs else dropHost cs

/-- The `url.search` property of a parsed URL string: `"?" ++ query` when the
query between `?` and `#` is nonempty, else `""` (WHATWG `search` is empty
for a missing or empty query, matching `overrideUrl.search || ""`). -/
def urlSearchOf (s : List Char) : String :=
  match dropToQH s with
  | '?' :: rest =>
      let q := takeUntilHash rest
      if q = [] then "" else ⟨'?' :: q⟩
  | _ => ""

/-- The `url.pathname` property of a root-relative URL string. -/
def urlPathOf (s : List Char) : String := ⟨takeUntilQH s⟩

/-- The characters after the scheme of an absolute `http`/`https` URL. -/
def schemeRest (t : String) : Option (List Char) :=
  if strStarts t ("http://") then some (t.data.drop 7)
  else if strStarts t ("https://") then some (t.data.drop 8)
  else none

/-- Model of `new URL(t, "http://dummybase")` restricted to the validated
override shapes, returning `(pathname, search)`; `none` models the
constructor throwing (absolute URL with empty host). -/
def parseOverrideUrl (t : String) : Option (String × String) :=
  if strStarts t ("/") then some (urlPathOf t.data, urlSearchOf t.data)
  else
    match schemeRest t with
    | some rest =>
        if takeHost rest = [] then none
        else
          match dropHost rest with
          | [] => some ("/", "")
          | '/' :: tl => some (urlPathOf ('/' :: tl), urlSearchOf ('/' :: tl))
          | other => some ("/", urlSearchOf other)
    | none => none

/-- The event types `track` distinguishes. -/
inductive EventType where
  | pageview
  | custom_event
  | outbound
  | performance
  | error
  | button_click
  | copy
  | form_submit
  | input_change
deriving DecidableEq

/-- Collected web-vitals metrics (runtime numbers treated as opaque integers;
the pipeline never computes with them). -/
structure WebVitalsData where
  lcp : Option Int := none
  cls : Option Int := none
  inp : Option Int := none
  fcp : Option Int := none
  ttfb : Option Int := none
deriving DecidableEq

/-- The `eventData` argument of `track`.  The property bag is a key/value
list; `none` models an absent `properties` argument. -/
structure EventData where
  eventName : Option String := none
  properties : Option (List (String × String)) := none
  pathOverride : Option String := none
  webVitals : Option WebVitalsData := none
deriving DecidableEq

/-- The outbound analytics payload.  `properties` models the JSON-serialized
property bag; absent optional fields are `none` (a key spread in with value
`undefined` is dropped by `JSON.stringify`, hence also `none`). -/
structure TrackPayload where
  site_id : String
  hostname : String
  pathname : String
  querystring : String
  screenWidth : Nat
  screenHeight : Nat
  language : String
  page_title : String
  referrer : String
  type : EventType
  event_name : Option String
  properties : Option (List (String × String))
  webVitals : Option WebVitalsData
  user_id : Option String
deriving DecidableEq

/-- The browser and module state `track` reads: the module-level opt-out
flag and user id, the config proxy, and the page snapshot taken at call
time. -/
structure TrackEnv where
  isOptedOut : Bool
  config : Option InternalConfig
  loc : PageLocation
  screenWidth : Nat
  screenHeight : Nat
  language : String
  pageTitle : String
  referrer : String
  customUserId : Option String
deriving DecidableEq

/-- Module-load computation of `isOptedOut`: set when local storage holds
the `disable-rybbit` key or the page set the `__RYBBIT_OPTOUT__` global. -/
def computeOptOut (storageHasDisableKey windowOptOutFlag : Bool) : Bool :=
  storageHasDisableKey || windowOptOutFlag

/-- Path and query resolution of `track` (the override branch plus the
default branch): a pageview with a nonblank override that passes the
leading-`/` / absolute-URL validation and parses is resolved against the
neutral base; every other case (including a failed validation or parse,
which the source reaches through `catch`) uses the live page's
`getPathname()` and, when query-string capture is on, its query string. -/
def resolvePath (loc : PageLocation) (trackQuerystring : Bool) (ty : EventType)
    (pathOverride : Option String) : String × String :=
  let fallback := (getPathname loc, if trackQuerystring then loc.search else "")
  match ty, pathOverride with
  | EventType.pageview, some po =>
      let t := jsTrim po
      if t = "" then fallback
      else
        if strStarts t ("/") || strStarts t ("http://") || strStarts t ("https://") then
          match parseOverrideUrl t with
          | some r => r
          | none => fallback
        else fallback
  | _, _ => fallback

/-- Mask classification of `track`: a mask-list match replaces the path by
the matched pattern text and clears the query string, except for
`performance` events (`if (maskMatch && eventType !== "performance")`). -/
def applyMask (ty : EventType) (maskPatterns : List String) (ps : String × String) :
    String × String :=
  match findMatchingPattern ps.1 maskPatterns with
  | some m => if ty = EventType.performance then ps else (m, "")
  | none => ps

/-- Payload assembly of `track` from the resolved-and-masked path/query pair
and the call-time page snapshot, with the type-conditional optional fields. -/
def mkTrackPayload (env : TrackEnv) (cfg : InternalConfig) (ty : EventType) (ed : EventData)
    (ps : String × String) : TrackPayload :=
  { site_id := cfg.siteId
    hostname := env.loc.hostname
    pathname := ps.1
    querystring := ps.2
    screenWidth := env.screenWidth
    screenHeight := env.screenHeight
    language := env.language
    page_title := env.pageTitle
    referrer := env.referrer
    type := ty
    event_name :=
      if ty = EventType.custom_event ∨ ty = EventType.performance ∨ ty = EventType.error then
        ed.eventName
      else none
    properties :=
      if (ty = EventType.custom_event ∨ ty = EventType.outbound ∨ ty = EventType.error ∨
            ty = EventType.button_click ∨ ty = EventType.copy ∨ ty = EventType.form_submit ∨
            ty = EventType.input_change) ∧
          0 < (ed.properties.getD []).length then
        ed.properties
      else none
    webVitals := if ty = EventType.performance then ed.webVitals else none
    user_id :=
      match env.customUserId with
      | some u => if u = "" then none else some u
      | none => none }

/-- Embedding of `track`: `none` means the call issued no outbound delivery
attempt; `some payload` means exactly one delivery attempt of `payload`
(beacon, or the keep-alive fetch fallback).  Short-circuits in source
order: the opt-out flag; a missing or identity-incomplete configuration
(the uninitialized proxy yields `undefined` for `analyticsHost`); a missing
event name for `custom_event`/`performance`; then a skip-list match for
non-`performance` events. -/
def track (env : TrackEnv) (ty : EventType) (ed : EventData) : Option TrackPayload :=
  if env.isOptedOut = true then none
  else
    match env.config with
    | none => none
    | some cfg =>
        if cfg.analyticsHost = "" ∨ cfg.siteId = "" then none
        else
          if (ty = EventType.custom_event ∨ ty = EventType.performance) ∧
              optStr ed.eventName = "" then none
          else
            let ps := resolvePath env.loc cfg.trackQuerystring ty ed.pathOverride
            if ty ≠ EventType.performance ∧
                (findMatchingPattern ps.1 cfg.skipPatterns).isSome then none
            else some (mkTrackPayload env cfg ty ed (applyMask ty cfg.maskPatterns ps))

/-! ### ReplayEngine buffer (`src/sessionReplay.ts`)

The recorder emission buffer.  `flushEvents` copies the buffer, clears it,
and sends the batch; the send settles asynchronously, so it is modelled in
two steps: `flushTake` is the synchronous swap (`const events =
[...eventBuffer]; eventBuffer = []`), and the continuation is either
`flushResolve` (the batch was delivered) or `flushReject` (the send
rejected or returned non-2xx — `sendBatch` throws on `!response.ok` — and
the catch handler runs `eventBuffer.unshift(...events)`).  Frames emitted
while the send is in flight are appended to the live buffer in between. -/

/-- One recorder emission (`SessionReplayEvent`): frame kind, payload,
timestamp. -/
structure ReplayFrame where
  type : Nat
  data : String
  timestamp : Nat
deriving DecidableEq

/-- The replay module state: the in-memory frame buffer and, for
accounting delivery, the batches sent successfully so far. -/
structure ReplayState where
  eventBuffer : List ReplayFrame
  delivered : List (List ReplayFrame)
deriving DecidableEq

/-- Embedding of `addEvent`'s buffer push (`eventBuffer.push(event)`); the
size-threshold check that triggers `flushEvents` at 250 frames re-enters the
flush pipeline below. -/
def addEvent (s : ReplayState) (e : ReplayFrame) : ReplayState :=
  { s with eventBuffer := s.eventBuffer ++ [e] }

/-- A sequence of recorder emissions applied in order. -/
def addEvents (s : ReplayState) (es : List ReplayFrame) : ReplayState :=
  es.foldl addEvent s

/-- Synchronous start of `flushEvents`: if the buffer is empty do nothing,
otherwise atomically swap the whole buffer out as the batch to send. -/
def flushTake (s : ReplayState) : ReplayState × List ReplayFrame :=
  if s.eventBuffer = [] then (s, [])
  else ({ s with eventBuffer := [] }, s.eventBuffer)

/-- Completion of a successful send: the batch is delivered. -/
def flushResolve (s : ReplayState) (events : List ReplayFrame) : ReplayState :=
  { s with delivered := s.delivered ++ [events] }

/-- Completion of a failed send (`sendBatch` rejected or the response was
non-2xx): `eventBuffer.unshift(...events)` prepends the exact frames of the
failed batch to the front of the live buffer. -/
def flushReject (s : ReplayState) (events : List ReplayFrame) : ReplayState :=
  { s with eventBuffer := events ++ s.eventBuffer }

/-! ### ListenerRegistry (`src/listeners.ts`) and `debounce` (`src/utils.ts`)

`debounce(f, wait)` keeps one pending timeout; each call clears it and
schedules `f` with the latest arguments `wait` ms later.  Under the
single-threaded event loop this has a denotational reading over a
time-ordered trigger sequence: a trigger's scheduled call survives exactly
when no further trigger arrives strictly before its deadline.
`setupAutoTracking` wires the pageview trigger through `debounce` only when
the configured duration is positive (`cfg.debounce && cfg.debounce > 0`);
otherwise every trigger calls through immediately. -/

/-- Denotation of `debounce func wait` over a time-ordered list of
`(trigger time, argument)` pairs: the list of `(call time, argument)`
downstream calls.  A pending timeout is cleared exactly when the next
trigger arrives strictly before the deadline `t + wait`. -/
def debounceRun (wait : Nat) : List (Nat × String) → List (Nat × String)
  | [] => []
  | [(t, a)] => [(t + wait, a)]
  | (t, a) :: (t2, b) :: rest =>
      if t2 < t + wait then debounceRun wait ((t2, b) :: rest)
      else (t + wait, a) :: debounceRun wait ((t2, b) :: rest)

/-- Downstream calls of the `pageviewTracker` built in `setupAutoTracking`:
the debounced function when the configured duration is positive, else the
immediate function (each trigger calls through at its own time). -/
def pageviewTrackerRuns (debounceMs : Nat) (triggers : List (Nat × String)) :
    List (Nat × String) :=
  if 0 < debounceMs then debounceRun debounceMs triggers else triggers

/-- Consecutive trigger gaps all strictly inside the debounce window (one
burst of rapid triggers). -/
def gapsLt (w : Nat) : List (Nat × String) → Bool
  | [] => true
  | [_] => true
  | (t, _) :: (t2, b) :: rest => decide (t2 < t + w) && gapsLt w ((t2, b) :: rest)

/-- Consecutive trigger gaps all at least the debounce window (triggers
spaced beyond the window). -/
def gapsGe (w : Nat) : List (Nat × String) → Bool
  | [] => true
  | [_] => true
  | (t, _) :: (t2, b) :: rest => decide (t + w ≤ t2) && gapsGe w ((t2, b) :: rest)

/-- The navigation listener state: the last observed pathname and the
page-change callback invocations `(new, previous)` so far. -/
structure ListenerState where
  currentPathname : String
  notifications : List (String × String)
deriving DecidableEq

/-- Embedding of `notifyPageChange`: record the new pathname and, exactly
when it differs from the previous one, invoke every registered callback
synchronously with `(new, previous)`. -/
def notifyPageChange (st : ListenerState) (newPath : String) : ListenerState :=
  { currentPathname := newPath
    notifications :=
      if st.currentPathname ≠ newPath then st.notifications ++ [(newPath, st.currentPathname)]
      else st.notifications }

/-- The body of the pageview trigger in `setupAutoTracking`: read
`getPathname()` and feed it to `notifyPageChange` (after which
`track "pageview"` runs). -/
def pageviewTriggerStep (loc : PageLocation) (st : ListenerState) : ListenerState :=
  notifyPageChange st (getPathname loc)

/-- Last element of a trigger sequence (the arguments the trailing debounce
call uses). -/
def lastTrigger : List (Nat × String) → Option (Nat × String)
  | [] => none
  | [p] => some p
  | _ :: q :: rest => lastTrigger (q :: rest)

/-! ### Concrete fixtures used by witnesses and counterexamples -/

/-- A frozen configuration with empty pattern lists. -/
def cfgBase : InternalConfig :=
  { analyticsHost := "https://a.example"
    siteId := "s1"
    debounceDuration := 500
    skipPatterns := []
    maskPatterns := []
    debug := false
    replayPrivacyConfig := none
    autoTrackPageview := true
    autoTrackSpa := true
    trackQuerystring := true
    trackOutbound := true
    enableWebVitals := false
    trackErrors := false
    enableSessionReplay := false }

/-- A page location with a query string and no hash. -/
def locBase : PageLocation :=
  { hostname := "example.com", pathname := "/path", search := "?x=1", hash := "" }

/-- A call environment with the base configuration and location. -/
def envBase : TrackEnv :=
  { isOptedOut := false
    config := some cfgBase
    loc := locBase
    screenWidth := 800
    screenHeight := 600
    language := "en"
    pageTitle := "T"
    referrer := ""
    customUserId := none }

/-- Configuration whose mask list holds the wildcard pattern
covering `/users/42`. -/
def cfgMask : InternalConfig := { cfgBase with maskPatterns := ["/users/*"] }

/-- Location whose path matches the mask pattern and carries a secret query. -/
def locMask : PageLocation :=
  { hostname := "example.com", pathname := "/users/42", search := "?secret=1", hash := "" }

/-- Environment for the masking counterexample. -/
def envMask : TrackEnv := { envBase with config := some cfgMask, loc := locMask }

/-- Caller options that also carry an explicit remote-controlled toggle
(`trackQuerystring: false`), which `initializeConfig` never reads. -/
def optsCaller : RybbitOptions :=
  { analyticsHost := some ("https://a.example")
    siteId := some ("s1")
    trackQuerystring := some false }

/-- A 2xx remote-config response that sets `trackUrlParams: true`,
conflicting with the caller's explicit `trackQuerystring: false`. -/
def fetchConflict : FetchOutcome :=
  FetchOutcome.response true { trackUrlParams := some true }

/-- A location whose URL carries both a query string and a hash fragment. -/
def locHash : PageLocation :=
  { hostname := "example.com", pathname := "/path", search := "?x=1", hash := "#section" }

/-- Listener state that last observed the start path. -/
def stStart : ListenerState := { currentPathname := "/start", notifications := [] }

/-- Three concrete replay frames. -/
def frameA : ReplayFrame := { type := 2, data := "dA", timestamp := 1 }

/-- Second concrete replay frame. -/
def frameB : ReplayFrame := { type := 3, data := "dB", timestamp := 2 }

/-- A frame emitted while a send is in flight. -/
def frameMid : ReplayFrame := { type := 3, data := "dMid", timestamp := 3 }

/-- Event data of a performance event carrying the web-vitals name. -/
def edPerf : EventData := { eventName := some ("wv") }

/-- The payload a plain pageview in `envBase` delivers. -/
def pBase : TrackPayload :=
  mkTrackPayload envBase cfgBase EventType.pageview {} ("/path", "?x=1")

/-- The payload a masked pageview in `envMask` delivers. -/
def pMask : TrackPayload :=
  mkTrackPayload envMask cfgMask EventType.pageview {} ("/users/*", "")

/-! ### Helper lemmas -/

theorem addEvents_eventBuffer (es : List ReplayFrame) (s : ReplayState) :
    (addEvents s es).eventBuffer = s.eventBuffer ++ es := by
  induction es generalizing s with
  | nil => simp [addEvents]
  | cons e es ih =>
      show (addEvents (addEvent s e) es).eventBuffer = _
      rw [ih]
      simp [addEvent]

theorem addEvents_delivered (es : List ReplayFrame) (s : ReplayState) :
    (addEvents s es).delivered = s.delivered := by
  induction es generalizing s with
  | nil => rfl
  | cons e es ih =>
      show (addEvents (addEvent s e) es).delivered = _
      rw [ih]
      rfl

theorem track_eq_some (env : TrackEnv) (cfg : InternalConfig) (ty : EventType) (ed : EventData)
    (p : TrackPayload) (hcfg : env.config = some cfg) (h : track env ty ed = some p) :
    p = mkTrackPayload env cfg ty ed
      (applyMask ty cfg.maskPatterns (resolvePath env.loc cfg.trackQuerystring ty ed.pathOverride)) := by
  unfold track at h
  rw [hcfg] at h
  have h' : (if env.isOptedOut = true then none
      else if cfg.analyticsHost = "" ∨ cfg.siteId = "" then none
      else if (ty = EventType.custom_event ∨ ty = EventType.performance) ∧ optStr ed.eventName = "" then none
      else if ty ≠ EventType.performance ∧
          (findMatchingPattern (resolvePath env.loc cfg.trackQuerystring ty ed.pathOverride).1 cfg.skipPatterns).isSome = true then none
      else some (mkTrackPayload env cfg ty ed
        (applyMask ty cfg.maskPatterns (resolvePath env.loc cfg.trackQuerystring ty ed.pathOverride)))) = some p := h
  by_cases h1 : env.isOptedOut = true
  · rw [if_pos h1] at h'; cases h'
  · rw [if_neg h1] at h'
    by_cases h2 : cfg.analyticsHost = "" ∨ cfg.siteId = ""
    · rw [if_pos h2] at h'; cases h'
    · rw [if_neg h2] at h'
      by_cases h3 : (ty = EventType.custom_event ∨ ty = EventType.performance) ∧ optStr ed.eventName = ""
      · rw [if_pos h3] at h'; cases h'
      · rw [if_neg h3] at h'
        by_cases h4 : ty ≠ EventType.performance ∧
            (findMatchingPattern (resolvePath env.loc cfg.trackQuerystring ty ed.pathOverride).1 cfg.skipPatterns).isSome = true
        · rw [if_pos h4] at h'; cases h'
        · rw [if_neg h4] at h'
          exact (Option.some.inj h').symm

theorem track_opted_out (env : TrackEnv) (ty : EventType) (ed : EventData)
    (h : env.isOptedOut = true) : track env ty ed = none := by
  unfold track
  rw [h, if_pos rfl]

theorem track_no_config (env : TrackEnv) (ty : EventType) (ed : EventData)
    (h : env.config = none) : track env ty ed = none := by
  unfold track
  by_cases h1 : env.isOptedOut = true
  · rw [if_pos h1]
  · rw [if_neg h1, h]

theorem track_config_some (env : TrackEnv) (cfg : InternalConfig) (ty : EventType)
    (ed : EventData) (hcfg : env.config = some cfg) (hopt : env.isOptedOut = false) :
    track env ty ed =
      (if cfg.analyticsHost = "" ∨ cfg.siteId = "" then none
       else if (ty = EventType.custom_event ∨ ty = EventType.performance) ∧
           optStr ed.eventName = "" then none
       else if ty ≠ EventType.performance ∧
           (findMatchingPattern (resolvePath env.loc cfg.trackQuerystring ty ed.pathOverride).1
             cfg.skipPatterns).isSome = true then none
       else some (mkTrackPayload env cfg ty ed
         (applyMask ty cfg.maskPatterns
           (resolvePath env.loc cfg.trackQuerystring ty ed.pathOverride)))) := by
  unfold track
  rw [hcfg, hopt, if_neg Bool.false_ne_true]

theorem resolvePath_pageview_some (loc : PageLocation) (tq : Bool) (po : String) :
    resolvePath loc tq EventType.pageview (some po) =
      (if jsTrim po = "" then (getPathname loc, if tq then loc.search else "")
       else if (strStarts (jsTrim po) ("/") || strStarts (jsTrim po) ("http://") ||
           strStarts (jsTrim po) ("https://")) = true then
         match parseOverrideUrl (jsTrim po) with
         | some r => r
         | none => (getPathname loc, if tq then loc.search else "")
       else (getPathname loc, if tq then loc.search else "")) := rfl

theorem resolvePath_no_override (loc : PageLocation) (tq : Bool) (ty : EventType) :
    resolvePath loc tq ty none = (getPathname loc, if tq then loc.search else "") := by
  cases ty <;> rfl

theorem getPathname_append (loc : PageLocation) :
    getPathname loc = loc.pathname ++ loc.hash := by
  unfold getPathname
  by_cases h : loc.hash = ""
  · rw [if_pos h, h]
    exact (String.append_empty _).symm
  · rw [if_neg h]

theorem debounceRun_burst (w : Nat) : ∀ (ts : List (Nat × String)) (t : Nat) (a : String),
    gapsLt w ts = true → lastTrigger ts = some (t, a) → debounceRun w ts = [(t + w, a)]
  | [], t, a, _, hl => by cases hl
  | [(t1, a1)], t, a, _, hl => by
      have h := Option.some.inj hl
      injection h with h1 h2
      subst h1
      subst h2
      rfl
  | (t1, a1) :: (t2, a2) :: rest, t, a, hg, hl => by
      simp only [gapsLt, Bool.and_eq_true, decide_eq_true_eq] at hg
      have hl' : lastTrigger ((t2, a2) :: rest) = some (t, a) := hl
      rw [debounceRun, if_pos hg.1]
      exact debounceRun_burst w ((t2, a2) :: rest) t a hg.2 hl'

theorem applyMask_no_match (ty : EventType) (masks : List String) (ps : String × String)
    (h : findMatchingPattern ps.1 masks = none) : applyMask ty masks ps = ps := by
  unfold applyMask
  rw [h]

theorem initializeConfig_obj (o : RybbitOptions) (fetch : FetchOutcome) :
    initializeConfig none (OptionsInput.obj o) fetch =
      (match o.analyticsHost with
       | none => (false, none)
       | some ah =>
           if jsTrim ah = "" then (false, none)
           else
             match o.siteId with
             | none => (false, none)
             | some sid =>
                 if jsTrim sid = "" then (false, none)
                 else (true, some (freezeConfig o (stripTrailingSlash ah) sid fetch))) := rfl

theorem debounceRun_spaced (w : Nat) : ∀ (ts : List (Nat × String)),
    gapsGe w ts = true → debounceRun w ts = ts.map fun p => (p.1 + w, p.2)
  | [], _ => rfl
  | [(t1, a1)], _ => rfl
  | (t1, a1) :: (t2, a2) :: rest, hg => by
      simp only [gapsGe, Bool.and_eq_true, decide_eq_true_eq] at hg
      rw [debounceRun, if_neg (Nat.not_lt.mpr hg.1)]
      rw [debounceRun_spaced w ((t2, a2) :: rest) hg.2]
      rfl

/-! ### Claim theorems -/

/-- Claim C1: when a replay flush's send fails, exactly the frames of the
failed batch are prepended to the front of the live buffer, ahead of any
frames emitted while the send was in flight; no frame is lost or
duplicated (the buffer is exactly the failed batch followed by the new
frames, and nothing was delivered), and the next flush's batch carries them
in the original emission order. -/
theorem replay_failed_flush_requeued (s s1 : ReplayState) (batch mid : List ReplayFrame)
    (hne : s.eventBuffer ≠ []) (htake : flushTake s = (s1, batch)) :
    batch = s.eventBuffer ∧
    s1.eventBuffer = [] ∧
    (flushReject (addEvents s1 mid) batch).eventBuffer = s.eventBuffer ++ mid ∧
    (flushReject (addEvents s1 mid) batch).delivered = s.delivered ∧
    (flushTake (flushReject (addEvents s1 mid) batch)).2 = s.eventBuffer ++ mid := by
  rw [flushTake, if_neg hne] at htake
  injection htake with h1 h2
  subst h1
  subst h2
  have hbuf : (flushReject (addEvents { s with eventBuffer := [] } mid) s.eventBuffer).eventBuffer
      = s.eventBuffer ++ mid := by
    simp [flushReject, addEvents_eventBuffer]
  refine ⟨rfl, rfl, hbuf, ?_, ?_⟩
  · simp [flushReject, addEvents_delivered]
  · rw [flushTake, if_neg ?_]
    · exact hbuf
    · rw [hbuf]
      intro hc
      exact hne (List.append_eq_nil.mp hc).1

/-- Witness for C1: a two-frame buffer is flushed, the send fails while one
new frame arrives, and the requeued buffer is exactly the failed frames
followed by the new one. -/
theorem replay_failed_flush_requeued_witness :
    (flushReject (addEvents { eventBuffer := [], delivered := [] } [frameMid])
      [frameA, frameB]).eventBuffer = [frameA, frameB, frameMid] := by
  have h := replay_failed_flush_requeued
      { eventBuffer := [frameA, frameB], delivered := [] }
      { eventBuffer := [], delivered := [] } [frameA, frameB] [frameMid]
      (by decide) (by decide)
  exact h.2.2.1.trans (by decide)

/-- Claim C3: the glob compiler turns `*` into a single-segment wildcard and
`**` into an across-segments wildcard, but `**` between two slashes cannot
match zero segments: `/api/**/users` matches `/api/v1/users` and
`/api/v1/v2/users` yet rejects `/api/users`, contradicting the claim (and
`utils.test.ts`), while the `*` behavior is as claimed. -/
theorem glob_double_wildcard_requires_one_segment :
    patternTest ("/api/*/users") ("/api/v1/users") = true ∧
    patternTest ("/api/*/users") ("/api/v1/v2/users") = false ∧
    patternTest ("/api/**/users") ("/api/v1/users") = true ∧
    patternTest ("/api/**/users") ("/api/v1/v2/users") = true ∧
    patternTest ("/api/**/users") ("/api/users") = false := by decide

/-- Claim C4: `patternToRegex` has no handling of the `re:` prefix at all:
compilation of `re:` and of the malformed `re:(` succeeds instead of
returning null (the escaping pass makes every input compile), the
regex-prefixed pattern is treated as a glob that matches only its own
literal text, and `re:^/users/\d+$` therefore fails to match `/users/123`,
contradicting the claim (and `utils.test.ts`). -/
theorem regex_prefix_unsupported :
    patternToRegex ("re:") ≠ none ∧
    patternToRegex ("re:(") ≠ none ∧
    patternTest ("re:^/users/\\d+$") ("/users/123") = false ∧
    patternTest ("re:(") ("re:(") = true := by decide

/-- Claim C9: with a positive configured debounce duration, rapid triggers
whose gaps are all inside the window collapse into exactly one downstream
call, fired one window after the last trigger with the last trigger's
argument; triggers spaced at least a window apart each fire their own
call; a configured duration of zero fires every trigger immediately. -/
theorem debounce_collapses_rapid_triggers (w : Nat) (ts : List (Nat × String)) :
    (0 < w → gapsLt w ts = true → ∀ t a, lastTrigger ts = some (t, a) →
        pageviewTrackerRuns w ts = [(t + w, a)]) ∧
    (0 < w → gapsGe w ts = true →
        pageviewTrackerRuns w ts = ts.map fun p => (p.1 + w, p.2)) ∧
    pageviewTrackerRuns 0 ts = ts := by
  refine ⟨fun hw hg t a hl => ?_, fun hw hg => ?_, ?_⟩
  · rw [pageviewTrackerRuns, if_pos hw]
    exact debounceRun_burst w ts t a hg hl
  · rw [pageviewTrackerRuns, if_pos hw]
    exact debounceRun_spaced w ts hg
  · rw [pageviewTrackerRuns, if_neg (by simp)]

/-- Witness for C9: three rapid triggers collapse into one trailing call
with the last argument; two spaced triggers fire separately; duration zero
passes triggers through unchanged. -/
theorem debounce_collapses_rapid_triggers_witness :
    pageviewTrackerRuns 200 [(0, "a"), (50, "b"), (100, "c")] = [(300, "c")] ∧
    pageviewTrackerRuns 200 [(0, "a"), (300, "b")] = [(200, "a"), (500, "b")] ∧
    pageviewTrackerRuns 0 [(0, "a"), (1, "b")] = [(0, "a"), (1, "b")] := by
  refine ⟨?_, ?_, ?_⟩
  · exact (debounce_collapses_rapid_triggers 200 [(0, "a"), (50, "b"), (100, "c")]).1
      (by decide) (by decide) 100 ("c") (by decide)
  · exact ((debounce_collapses_rapid_triggers 200 [(0, "a"), (300, "b")]).2.1
      (by decide) (by decide)).trans (by decide)
  · exact (debounce_collapses_rapid_triggers 0 [(0, "a"), (1, "b")]).2.2

/-- Counterexample to C2 as stated: for a `performance` event whose resolved
path `/users/42` matches the mask pattern `/users/*`, the delivered payload
keeps the real path and the real query string — masking is skipped for
performance events, so the mask invariant does not hold for every event
type. -/
theorem mask_skipped_for_performance_counterexample :
    findMatchingPattern (locMask.pathname) cfgMask.maskPatterns = some ("/users/*") ∧
    (track envMask EventType.performance edPerf).map TrackPayload.pathname =
      some ("/users/42") ∧
    (track envMask EventType.performance edPerf).map TrackPayload.querystring =
      some ("?secret=1") := by
  decide

/-- Claim C2 (amended: for every event type other than `performance`): when
the resolved path matches some mask pattern, the delivered payload's
pathname is the literal text of the first matching mask pattern and its
query string is empty, regardless of the original query string. -/
theorem mask_replaces_path_and_clears_query (env : TrackEnv) (cfg : InternalConfig)
    (ty : EventType) (ed : EventData) (p : TrackPayload) (m : String)
    (hcfg : env.config = some cfg) (hty : ty ≠ EventType.performance)
    (hmask : findMatchingPattern
      (resolvePath env.loc cfg.trackQuerystring ty ed.pathOverride).1 cfg.maskPatterns = some m)
    (htrack : track env ty ed = some p) :
    p.pathname = m ∧ p.querystring = "" := by
  have hp := track_eq_some env cfg ty ed p hcfg htrack
  have hm : applyMask ty cfg.maskPatterns
      (resolvePath env.loc cfg.trackQuerystring ty ed.pathOverride) = (m, "") := by
    unfold applyMask
    rw [hmask]
    exact if_neg hty
  rw [hp, hm]
  exact ⟨rfl, rfl⟩

/-- Witness for C2 (amended): a pageview on `/users/42?secret=1` under mask
pattern `/users/*` yields pathname `/users/*` and an empty query string. -/
theorem mask_replaces_path_and_clears_query_witness :
    pMask.pathname = "/users/*" ∧ pMask.querystring = "" := by
  exact mask_replaces_path_and_clears_query envMask cfgMask EventType.pageview {} pMask
    ("/users/*") rfl (by decide) (by decide) (by decide)

/-- Counterexample to C7 as stated: an `error` event with a missing event
name is not rejected — with a sendable configuration the call still issues a
delivery attempt, so the name requirement does not extend to error events. -/
theorem error_event_without_name_delivered :
    optStr (({} : EventData).eventName) = "" ∧
    (track envBase EventType.error {}).isSome = true := by decide

/-- Claim C7 (amended: the name check covers `custom_event` and
`performance`, not `error`): the opt-out flag (set from persisted storage or
the page global) suppresses every call; a missing configuration, or one with
an empty endpoint or site id, suppresses every call; and a
`custom_event`/`performance` call with a missing event name is rejected — in
particular `track custom_event` with no name never invokes the transport. -/
theorem track_short_circuits :
    (∀ (sFlag wFlag : Bool) (env : TrackEnv) (ty : EventType) (ed : EventData),
        env.isOptedOut = computeOptOut sFlag wFlag → (sFlag = true ∨ wFlag = true) →
        track env ty ed = none) ∧
    (∀ (env : TrackEnv) (ty : EventType) (ed : EventData),
        env.config = none → track env ty ed = none) ∧
    (∀ (env : TrackEnv) (cfg : InternalConfig) (ty : EventType) (ed : EventData),
        env.config = some cfg → (cfg.analyticsHost = "" ∨ cfg.siteId = "") →
        track env ty ed = none) ∧
    (∀ (env : TrackEnv) (ed : EventData), optStr ed.eventName = "" →
        track env EventType.custom_event ed = none ∧
        track env EventType.performance ed = none) := by
  refine ⟨?_, ?_, ?_, ?_⟩
  · intro sFlag wFlag env ty ed hopt hflag
    apply track_opted_out
    rw [hopt]
    unfold computeOptOut
    rcases hflag with h | h
    · rw [h]; rfl
    · rw [h, Bool.or_true]
  · intro env ty ed h
    exact track_no_config env ty ed h
  · intro env cfg ty ed hcfg hid
    by_cases h1 : env.isOptedOut = true
    · exact track_opted_out env ty ed h1
    · rw [track_config_some env cfg ty ed hcfg (Bool.eq_false_iff.mpr h1), if_pos hid]
  · intro env ed hname
    constructor
    · by_cases h1 : env.isOptedOut = true
      · exact track_opted_out env _ _ h1
      · cases hc : env.config with
        | none => exact track_no_config env _ _ hc
        | some cfg =>
            rw [track_config_some env cfg _ _ hc (Bool.eq_false_iff.mpr h1)]
            by_cases h2 : cfg.analyticsHost = "" ∨ cfg.siteId = ""
            · rw [if_pos h2]
            · rw [if_neg h2, if_pos ⟨Or.inl rfl, hname⟩]
    · by_cases h1 : env.isOptedOut = true
      · exact track_opted_out env _ _ h1
      · cases hc : env.config with
        | none => exact track_no_config env _ _ hc
        | some cfg =>
            rw [track_config_some env cfg _ _ hc (Bool.eq_false_iff.mpr h1)]
            by_cases h2 : cfg.analyticsHost = "" ∨ cfg.siteId = ""
            · rw [if_pos h2]
            · rw [if_neg h2, if_pos ⟨Or.inr rfl, hname⟩]

/-- Witness for C7 (amended): concrete suppressed calls for each
short-circuit — opted out, missing configuration, empty site id, and a
nameless custom event. -/
theorem track_short_circuits_witness :
    track { envBase with isOptedOut := true } EventType.pageview {} = none ∧
    track { envBase with config := none } EventType.pageview {} = none ∧
    track { envBase with config := some { cfgBase with siteId := "" } }
      EventType.pageview {} = none ∧
    track envBase EventType.custom_event {} = none := by
  refine ⟨?_, ?_, ?_, ?_⟩
  · exact track_short_circuits.1 true false { envBase with isOptedOut := true }
      EventType.pageview {} (by decide) (Or.inl rfl)
  · exact track_short_circuits.2.1 _ EventType.pageview {} rfl
  · exact track_short_circuits.2.2.1 _ { cfgBase with siteId := "" } EventType.pageview {}
      rfl (Or.inr rfl)
  · exact (track_short_circuits.2.2.2 envBase {} rfl).1

/-- Claim C8: `initializeConfig` returns failure with no state change when
the store is already initialized, the input is not an object, the endpoint
host is missing or blank, or the site id is missing or blank; a second
initialization in particular returns failure, keeps the first frozen
configuration, and subsequent reads still return the first configuration's
values. -/
theorem config_init_failure_preserves_state :
    (∀ (c : InternalConfig) (input : OptionsInput) (fetch : FetchOutcome),
        initializeConfig (some c) input fetch = (false, some c)) ∧
    (∀ (fetch : FetchOutcome),
        initializeConfig none OptionsInput.notObject fetch = (false, none)) ∧
    (∀ (o : RybbitOptions) (fetch : FetchOutcome),
        (o.analyticsHost = none ∨ ∃ ah, o.analyticsHost = some ah ∧ jsTrim ah = "") →
        initializeConfig none (OptionsInput.obj o) fetch = (false, none)) ∧
    (∀ (o : RybbitOptions) (fetch : FetchOutcome),
        (o.siteId = none ∨ ∃ sid, o.siteId = some sid ∧ jsTrim sid = "") →
        initializeConfig none (OptionsInput.obj o) fetch = (false, none)) ∧
    (∀ (c : InternalConfig) (input : OptionsInput) (fetch : FetchOutcome),
        readAnalyticsHost (initializeConfig (some c) input fetch).2 = some c.analyticsHost ∧
        readDebug (initializeConfig (some c) input fetch).2 = c.debug ∧
        readTrackQuerystring (initializeConfig (some c) input fetch).2 = c.trackQuerystring) := by
  refine ⟨fun c input fetch => rfl, fun fetch => rfl, ?_, ?_,
    fun c input fetch => ⟨rfl, rfl, rfl⟩⟩
  · intro o fetch h
    rw [initializeConfig_obj]
    rcases h with h | ⟨ah, hah, htr⟩
    · rw [h]
    · rw [hah]
      simp [htr]
  · intro o fetch h
    rw [initializeConfig_obj]
    cases hah : o.analyticsHost with
    | none => rfl
    | some ah =>
        by_cases htr : jsTrim ah = ""
        · simp [htr]
        · rcases h with h | ⟨sid, hsid, htr2⟩
          · simp [htr, h]
          · simp [htr, hsid, htr2]

/-- Witness for C8: a second initialization fails and keeps the first
configuration; a blank host and an empty site id are rejected with no state
change; a read after the failed second initialization returns the first
configuration's endpoint. -/
theorem config_init_failure_preserves_state_witness :
    initializeConfig (some cfgBase) (OptionsInput.obj optsCaller) FetchOutcome.failed =
      (false, some cfgBase) ∧
    initializeConfig none (OptionsInput.obj { analyticsHost := some (" "), siteId := some ("s") })
      FetchOutcome.failed = (false, none) ∧
    initializeConfig none (OptionsInput.obj { analyticsHost := some ("h"), siteId := some ("") })
      FetchOutcome.failed = (false, none) ∧
    readAnalyticsHost (initializeConfig (some cfgBase) OptionsInput.notObject
      FetchOutcome.failed).2 = some ("https://a.example") := by
  refine ⟨?_, ?_, ?_, ?_⟩
  · exact config_init_failure_preserves_state.1 cfgBase (OptionsInput.obj optsCaller)
      FetchOutcome.failed
  · exact config_init_failure_preserves_state.2.2.1 _ FetchOutcome.failed
      (Or.inr ⟨" ", rfl, by decide⟩)
  · exact config_init_failure_preserves_state.2.2.2.1 _ FetchOutcome.failed
      (Or.inr ⟨"", rfl, by decide⟩)
  · exact (config_init_failure_preserves_state.2.2.2.2 cfgBase OptionsInput.notObject
      FetchOutcome.failed).1.trans (by decide)

/-- Counterexample to C6 as stated: the caller passes an explicit
`trackQuerystring: false` while the remote config supplies `trackUrlParams:
true`, and the frozen configuration holds the remote value `true` — the
caller's explicit value for a remote-controlled toggle is never consulted,
so the claimed caller-over-remote precedence does not hold. -/
theorem remote_toggle_ignores_caller_value :
    optsCaller.trackQuerystring = some false ∧
    (initializeConfig none (OptionsInput.obj optsCaller) fetchConflict).1 = true ∧
    ((initializeConfig none (OptionsInput.obj optsCaller) fetchConflict).2.map
      InternalConfig.trackQuerystring) = some true := by decide

/-- Claim C6 (amended: precedence is remote value over built-in default, the
caller's options are not consulted for remote-controlled toggles): after a
successful initialize, every remote-controlled toggle equals the fetched
remote value with per-field defaults, falls back to exactly the built-in
defaults when the fetch fails (network error, timeout, or non-2xx), and the
local fields are taken from the caller options unaffected by the fetch. -/
theorem remote_config_precedence (o : RybbitOptions) (fetch : FetchOutcome)
    (c : InternalConfig)
    (h : initializeConfig none (OptionsInput.obj o) fetch = (true, some c)) :
    (c.autoTrackPageview = ((fetchRemoteConfig fetch).getD remoteDefaults).autoTrackPageview ∧
     c.autoTrackSpa = ((fetchRemoteConfig fetch).getD remoteDefaults).autoTrackSpa ∧
     c.trackQuerystring = ((fetchRemoteConfig fetch).getD remoteDefaults).trackQuerystring ∧
     c.trackOutbound = ((fetchRemoteConfig fetch).getD remoteDefaults).trackOutbound ∧
     c.enableWebVitals = ((fetchRemoteConfig fetch).getD remoteDefaults).enableWebVitals ∧
     c.trackErrors = ((fetchRemoteConfig fetch).getD remoteDefaults).trackErrors ∧
     c.enableSessionReplay = ((fetchRemoteConfig fetch).getD remoteDefaults).enableSessionReplay) ∧
    (fetchRemoteConfig fetch = none →
      c.autoTrackPageview = remoteDefaults.autoTrackPageview ∧
      c.autoTrackSpa = remoteDefaults.autoTrackSpa ∧
      c.trackQuerystring = remoteDefaults.trackQuerystring ∧
      c.trackOutbound = remoteDefaults.trackOutbound ∧
      c.enableWebVitals = remoteDefaults.enableWebVitals ∧
      c.trackErrors = remoteDefaults.trackErrors ∧
      c.enableSessionReplay = remoteDefaults.enableSessionReplay) ∧
    (c.debounceDuration = max 0 (o.debounceDuration.getD 500) ∧
     c.skipPatterns = validateList o.skipPatterns ∧
     c.maskPatterns = validateList o.maskPatterns ∧
     c.debug = o.debug.getD false) := by
  rw [initializeConfig_obj] at h
  cases hah : o.analyticsHost with
  | none => rw [hah] at h; cases h
  | some ah =>
      rw [hah] at h
      have h' : (if jsTrim ah = "" then ((false, none) : Bool × ConfigState)
          else match o.siteId with
            | none => (false, none)
            | some sid =>
                if jsTrim sid = "" then (false, none)
                else (true, some (freezeConfig o (stripTrailingSlash ah) sid fetch))) =
          (true, some c) := h
      by_cases htr : jsTrim ah = ""
      · rw [if_pos htr] at h'; cases h'
      · rw [if_neg htr] at h'
        cases hsid : o.siteId with
        | none => rw [hsid] at h'; cases h'
        | some sid =>
            rw [hsid] at h'
            have h'' : (if jsTrim sid = "" then ((false, none) : Bool × ConfigState)
                else (true, some (freezeConfig o (stripTrailingSlash ah) sid fetch))) =
                (true, some c) := h'
            by_cases htr2 : jsTrim sid = ""
            · rw [if_pos htr2] at h''; cases h''
            · rw [if_neg htr2] at h''
              injection h'' with hfst hsnd
              have hc : freezeConfig o (stripTrailingSlash ah) sid fetch = c :=
                Option.some.inj hsnd
              subst hc
              refine ⟨⟨rfl, rfl, rfl, rfl, rfl, rfl, rfl⟩, ?_, rfl, rfl, rfl, rfl⟩
              intro hn
              simp [freezeConfig, hn]

/-- Witness for C6 (amended): with the caller explicitly passing
`trackQuerystring: false` and the remote response supplying `true`, the
frozen configuration holds the remote value. -/
theorem remote_config_precedence_witness :
    (freezeConfig optsCaller (stripTrailingSlash ("https://a.example")) ("s1")
      fetchConflict).trackQuerystring = true := by
  have h := remote_config_precedence optsCaller fetchConflict
    (freezeConfig optsCaller (stripTrailingSlash ("https://a.example")) ("s1") fetchConflict)
    (by decide)
  exact h.1.2.2.1.trans (by decide)

/-- Claim C5: a pageview with a nonblank override that passes the validity
check (leading `/` or absolute `http(s)` URL) and parses has its pathname
and query string extracted from the override itself, resolved against the
neutral base and independent of the page location; an override that fails
the validity check falls back to the live page's `getPathname()` and, when
query-string capture is enabled, its query string — and the delivered
payload carries those values when no mask pattern matches. -/
theorem pageview_override_resolution (env : TrackEnv) (cfg : InternalConfig)
    (ed : EventData) (po : String)
    (hcfg : env.config = some cfg) (hpo : ed.pathOverride = some po)
    (hne : jsTrim po ≠ "") :
    ((strStarts (jsTrim po) ("/") || strStarts (jsTrim po) ("http://") ||
        strStarts (jsTrim po) ("https://")) = true →
      ∀ pq, parseOverrideUrl (jsTrim po) = some pq →
        resolvePath env.loc cfg.trackQuerystring EventType.pageview ed.pathOverride = pq ∧
        ∀ p, track env EventType.pageview ed = some p →
          findMatchingPattern pq.1 cfg.maskPatterns = none →
          p.pathname = pq.1 ∧ p.querystring = pq.2) ∧
    ((strStarts (jsTrim po) ("/") || strStarts (jsTrim po) ("http://") ||
        strStarts (jsTrim po) ("https://")) = false →
      resolvePath env.loc cfg.trackQuerystring EventType.pageview ed.pathOverride =
        (getPathname env.loc, if cfg.trackQuerystring then env.loc.search else "") ∧
      ∀ p, track env EventType.pageview ed = some p →
        findMatchingPattern (getPathname env.loc) cfg.maskPatterns = none →
        p.pathname = getPathname env.loc ∧
        p.querystring = (if cfg.trackQuerystring then env.loc.search else "")) := by
  constructor
  · intro hval pq hparse
    have hres : resolvePath env.loc cfg.trackQuerystring EventType.pageview ed.pathOverride
        = pq := by
      rw [hpo, resolvePath_pageview_some, if_neg hne, if_pos hval, hparse]
    refine ⟨hres, ?_⟩
    intro p htrack hmaskn
    have hp := track_eq_some env cfg EventType.pageview ed p hcfg htrack
    rw [hres, applyMask_no_match EventType.pageview cfg.maskPatterns pq hmaskn] at hp
    rw [hp]
    exact ⟨rfl, rfl⟩
  · intro hval
    have hres : resolvePath env.loc cfg.trackQuerystring EventType.pageview ed.pathOverride
        = (getPathname env.loc, if cfg.trackQuerystring then env.loc.search else "") := by
      rw [hpo, resolvePath_pageview_some, if_neg hne,
        if_neg (fun hc => Bool.false_ne_true (hval.symm.trans hc))]
    refine ⟨hres, ?_⟩
    intro p htrack hmaskn
    have hp := track_eq_some env cfg EventType.pageview ed p hcfg htrack
    rw [hres, applyMask_no_match EventType.pageview cfg.maskPatterns _ hmaskn] at hp
    rw [hp]
    exact ⟨rfl, rfl⟩

/-- Witness for C5: override `/override/path?y=2` resolves to pathname
`/override/path` with query string `?y=2`; the invalid override `::::`
falls back to the live page's `/path` and `?x=1`. -/
theorem pageview_override_resolution_witness :
    resolvePath locBase true EventType.pageview (some ("/override/path?y=2")) =
      ("/override/path", "?y=2") ∧
    resolvePath locBase true EventType.pageview (some ("::::")) = ("/path", "?x=1") := by
  constructor
  · have h := (pageview_override_resolution envBase cfgBase
        { pathOverride := some ("/override/path?y=2") } ("/override/path?y=2")
        rfl rfl (by decide)).1 (by decide) ("/override/path", "?y=2") (by decide)
    exact h.1
  · have h := (pageview_override_resolution envBase cfgBase
        { pathOverride := some ("::::") } ("::::") rfl rfl (by decide)).2 (by decide)
    exact h.1.trans (by decide)

/-- Claim C10: `getPathname` is the location pathname with the hash
fragment appended, and the skip/mask classification input, the delivered
payload's pathname, and the page-change detection all operate on that
path-plus-hash string. -/
theorem tracking_pathname_includes_hash (loc : PageLocation) (st : ListenerState)
    (env : TrackEnv) (cfg : InternalConfig) (ty : EventType) (ed : EventData)
    (p : TrackPayload) :
    getPathname loc = loc.pathname ++ loc.hash ∧
    (∀ (tq : Bool) (ty2 : EventType),
        resolvePath loc tq ty2 none = (getPathname loc, if tq then loc.search else "")) ∧
    (env.config = some cfg → ed.pathOverride = none → track env ty ed = some p →
      findMatchingPattern (getPathname env.loc) cfg.maskPatterns = none →
      p.pathname = getPathname env.loc ∧
      p.querystring = (if cfg.trackQuerystring then env.loc.search else "")) ∧
    (pageviewTriggerStep loc st).currentPathname = getPathname loc ∧
    (st.currentPathname ≠ getPathname loc →
      (pageviewTriggerStep loc st).notifications =
        st.notifications ++ [(getPathname loc, st.currentPathname)]) := by
  refine ⟨getPathname_append loc, fun tq ty2 => resolvePath_no_override loc tq ty2,
    ?_, rfl, ?_⟩
  · intro hcfg hpo htrack hmaskn
    have hres : resolvePath env.loc cfg.trackQuerystring ty ed.pathOverride =
        (getPathname env.loc, if cfg.trackQuerystring then env.loc.search else "") := by
      rw [hpo, resolvePath_no_override]
    have hp := track_eq_some env cfg ty ed p hcfg htrack
    rw [hres, applyMask_no_match ty cfg.maskPatterns _ hmaskn] at hp
    rw [hp]
    exact ⟨rfl, rfl⟩
  · intro h
    simp [pageviewTriggerStep, notifyPageChange, h]

/-- Witness for C10: the location `/path?x=1#section` yields pathname
`/path#section`, the page-change notification fires with that value, and a
delivered pageview payload carries `getPathname` of the live location. -/
theorem tracking_pathname_includes_hash_witness :
    getPathname locHash = "/path#section" ∧
    (pageviewTriggerStep locHash stStart).notifications = [("/path#section", "/start")] ∧
    pBase.pathname = getPathname locBase := by
  refine ⟨?_, ?_, ?_⟩
  · exact (tracking_pathname_includes_hash locHash stStart envBase cfgBase
      EventType.pageview {} pBase).1.trans (by decide)
  · exact ((tracking_pathname_includes_hash locHash stStart envBase cfgBase
      EventType.pageview {} pBase).2.2.2.2 (by decide)).trans (by decide)
  · exact ((tracking_pathname_includes_hash locBase stStart envBase cfgBase
      EventType.pageview {} pBase).2.2.1 rfl rfl (by decide) (by decide)).1

end Rybbit
